import Mathlib

/-!
Shallow embedding of the AURAX routing and orchestration core
(`backend/core/model_router/router.py` and `backend/core/orchestrator.py`),
together with theorems settling the specification claims about it.

Numbers that the Python source computes with floats are modelled with `ℚ`;
all constants involved (0.3, 0.4, 0.5, 2.0, 2.5, 3.0, 7.5, ...) are exactly
representable, and the claims only compare such constants.

The regular-expression searches performed by the intent analyzers are not
modelled at the level of regex semantics: a `MatchProfile` records, for the
prompt under analysis, how many patterns of each family matched and whether
the explicit compound "booster" pattern of each family matched.  Every function
downstream of the regex layer is translated directly from the source.
-/

namespace Aurax

/-- The `ModelType` enum of `router.py`: the supported model backends. -/
inductive ModelType where
  | DEFAULT
  | CODE
  | IMAGE
  | WEB_SEARCH
deriving DecidableEq, Repr

/-- The string value of each enum member (`ModelType(str, Enum)` values). -/
def ModelType.value : ModelType → String
  | .DEFAULT => "default"
  | .CODE => "qwen3:coder"
  | .IMAGE => "stable-diffusion"
  | .WEB_SEARCH => "web-enhanced"

/-- The suggested-parameter dictionary built by `_get_model_parameters`.
Each field is `Option` because the Python dict only carries the keys the
selected backend needs. -/
structure GenParams where
  temperature : Option ℚ := none
  max_tokens : Option Nat := none
  top_p : Option ℚ := none
  steps : Option Nat := none
  guidance_scale : Option ℚ := none
  width : Option Nat := none
  height : Option Nat := none
  use_fresh_data : Option Bool := none
  context_threshold : Option ℚ := none
deriving DecidableEq, Repr

/-- The empty parameter dictionary (`{}`). -/
def GenParams.empty : GenParams := {}

/-- Structure `RouteResult` of `router.py`: the routing decision. -/
structure RouteResult where
  model_type : ModelType
  confidence : ℚ
  reasoning : String
  suggested_parameters : GenParams
deriving DecidableEq, Repr

/-- The routing-relevant content of the caller-supplied `metadata` dict:
only the presence and value of the `preferred_model` key matters to
`route_request`. -/
structure Metadata where
  preferred_model : Option String := none
deriving DecidableEq, Repr

/-- The `_code_patterns` regex list of `ModelRouter.__init__` (7 patterns). -/
def code_patterns : List String :=
  ["\\b(python|javascript|java|c\\+\\+|rust|go|typescript|php|ruby|swift|kotlin)\\b",
   "\\b(function|class|method|variable|algorithm|code|script|program|debug|bug|error|exception)\\b",
   "\\b(api|database|framework|library|package|module|import|export|compile|deploy)\\b",
   "\\b(if|else|for|while|return|def|var|let|const|public|private|static)\\b",
   "\\.(py|js|java|cpp|rs|go|ts|php|rb|swift|kt|html|css|sql)\\b",
   "\\b(implement|code|program|develop|build|create.*(function|class|method|api))\\b",
   "\\b(fix.*(bug|error)|debug|refactor|optimize.*(code|algorithm))\\b"]

/-- The `_image_patterns` regex list of `ModelRouter.__init__` (6 patterns). -/
def image_patterns : List String :=
  ["\\b(generate|create|make|draw|design|produce).*(image|picture|photo|illustration|artwork|graphic)\\b",
   "\\b(image|picture|photo|illustration|artwork|graphic|drawing|painting|sketch).*(of|showing|depicting)\\b",
   "\\b(visualize|visual|graphic|art|artistic|creative|aesthetic)\\b",
   "\\b(logo|icon|banner|poster|diagram|chart|infographic)\\b",
   "\\b(realistic|cartoon|anime|abstract|minimalist|vintage|modern)\\b",
   "\\b(draw|paint|sketch|render|design|illustrate)\\b"]

/-- The `_web_search_patterns` regex list of `ModelRouter.__init__` (5 patterns). -/
def web_search_patterns : List String :=
  ["\\b(latest|recent|current|new|today|this (week|month|year)|2024|2025)\\b",
   "\\b(news|updates|trends|developments|happenings)\\b",
   "\\b(what.*(happening|going on)|current (status|situation|state))\\b",
   "\\b(price|stock|market|weather|score|result)\\b",
   "\\b(events|schedule|calendar|availability|status)\\b"]

/-- Outcome of the regex layer on a given prompt: how many patterns of each
family `re.search` found in the lower-cased prompt, and for each family whether its
explicit booster pattern (`write/create/... code/function/...` for code,
`generate/create/make/draw ... image/picture/photo` for image) matched. -/
structure MatchProfile where
  codeMatches : Nat
  codeBoost : Bool
  imageMatches : Nat
  imageBoost : Bool
  webMatches : Nat
deriving DecidableEq, Repr

/-- Method `_analyze_code_intent`: confidence that the prompt is code-related.
The regex match results are supplied through the `MatchProfile`. -/
def analyze_code_intent (prof : MatchProfile) : ℚ :=
  let confidence := min ((prof.codeMatches : ℚ) / (code_patterns.length : ℚ) * 2) 1
  if prof.codeBoost then min (confidence + 3/10) 1 else confidence

/-- Method `_analyze_image_intent`: confidence that the prompt requests an image. -/
def analyze_image_intent (prof : MatchProfile) : ℚ :=
  let confidence := min ((prof.imageMatches : ℚ) / (image_patterns.length : ℚ) * 3) 1
  if prof.imageBoost then min (confidence + 2/5) 1 else confidence

/-- Method `_analyze_web_search_intent`: confidence that the prompt needs fresh
information.  This family has no booster. -/
def analyze_web_search_intent (prof : MatchProfile) : ℚ :=
  min ((prof.webMatches : ℚ) / (web_search_patterns.length : ℚ) * (5/2)) 1

/-- Method `_get_model_parameters`: base parameters updated per backend.  The
`prompt` argument is unused, as in the source. -/
def get_model_parameters (model_type : ModelType) (_prompt : String) : GenParams :=
  match model_type with
  | .CODE =>
      { temperature := some (3/10), max_tokens := some 3000, top_p := some (9/10) }
  | .IMAGE =>
      { temperature := some (7/10), max_tokens := some 2000, steps := some 30,
        guidance_scale := some (15/2), width := some 512, height := some 512 }
  | .WEB_SEARCH =>
      { temperature := some (3/5), max_tokens := some 2000,
        use_fresh_data := some true, context_threshold := some (3/10) }
  | .DEFAULT =>
      { temperature := some (7/10), max_tokens := some 2000 }

/-- The values of the `ModelType` enum, `[e.value for e in ModelType]`. -/
def known_model_values : List String :=
  ["default", "qwen3:coder", "stable-diffusion", "web-enhanced"]

/-- Construction of a `ModelType` from its string value, in enum declaration
order.  Models both `ModelType(preferred)` in `route_request` (always guarded
by membership in `known_model_values`) and the lookup loop of the orchestrator,
which starts from `DEFAULT` and keeps the first member whose value matches. -/
def model_type_of_value (v : String) : ModelType :=
  if v = "default" then .DEFAULT
  else if v = "qwen3:coder" then .CODE
  else if v = "stable-diffusion" then .IMAGE
  else if v = "web-enhanced" then .WEB_SEARCH
  else .DEFAULT

/-- The emptiness test `not s or not s.strip()` of the source: a string is
blank when every character is whitespace (an empty string trivially so). -/
def is_blank (s : String) : Bool :=
  s.data.all Char.isWhitespace

/-- The `preferred_model` lookup of `route_request`:
`metadata and "preferred_model" in metadata` followed by reading the key. -/
def metadata_preferred (metadata : Option Metadata) : Option String :=
  match metadata with
  | some md => md.preferred_model
  | none => none

/-- The candidate list built in `route_request` after intent analysis. -/
def candidate_list (prof : MatchProfile) : List (ModelType × ℚ × String) :=
  [(.CODE, analyze_code_intent prof, "Code-related keywords and patterns detected"),
   (.IMAGE, analyze_image_intent prof, "Image generation request detected"),
   (.WEB_SEARCH, analyze_web_search_intent prof, "Current information request detected"),
   (.DEFAULT, 1/2, "General query, using default model")]

/-- Models `confidences.sort(key=..., reverse=True)` followed by `confidences[0]`:
the Python sort is stable, so index 0 after a descending sort is the first
element of the original list attaining the maximal confidence.  The fold
keeps the current element unless a strictly higher confidence appears. -/
def select_top : List (ModelType × ℚ × String) → ModelType × ℚ × String
  | [] => (.DEFAULT, 1/2, "General query, using default model")
  | c :: rest => rest.foldl (fun best x => if best.2.1 < x.2.1 then x else best) c

/-- The minimum-confidence gate of `route_request`: a selected non-default
backend with confidence below 0.4 is overridden to `DEFAULT`. -/
def apply_min_confidence : ModelType × ℚ × String → ModelType × ℚ × String
  | (selected_model, confidence, reasoning) =>
      if confidence < 2/5 ∧ selected_model ≠ .DEFAULT then
        (.DEFAULT, 1/2, "Low confidence in specialized model, defaulting to general model")
      else
        (selected_model, confidence, reasoning)

/-- The scoring path of `route_request` (no empty prompt, no explicit
selector): analyze intents, pick the top candidate, apply the gate. -/
def route_score (prompt : String) (prof : MatchProfile) : RouteResult :=
  let top := select_top (candidate_list prof)
  let gated := apply_min_confidence top
  { model_type := gated.1, confidence := gated.2.1, reasoning := gated.2.2,
    suggested_parameters := get_model_parameters gated.1 prompt }

/-- Method `ModelRouter.route_request` (also the module-level `route_request`
convenience function): empty-prompt short-circuit, explicit-selector
short-circuit, then scoring.  The `try/except` wrapper of the source is not
modelled: every operation in the body is total here, so the handler that
returns a `DEFAULT` decision with confidence 0.5 on an internal exception is
unreachable. -/
def route_request (prompt : String) (metadata : Option Metadata)
    (prof : MatchProfile) : RouteResult :=
  if is_blank prompt then
    { model_type := .DEFAULT, confidence := 1,
      reasoning := "Empty prompt, using default model",
      suggested_parameters := get_model_parameters .DEFAULT prompt }
  else
    match metadata_preferred metadata with
    | some preferred =>
        if preferred ∈ known_model_values then
          { model_type := model_type_of_value preferred, confidence := 1,
            reasoning := "Explicitly requested model: " ++ preferred,
            suggested_parameters :=
              get_model_parameters (model_type_of_value preferred) prompt }
        else route_score prompt prof
    | none => route_score prompt prof

/-! ## Orchestrator data model (`backend/core/orchestrator.py`) -/

/-- A context document returned by the RAG retriever: the orchestrator reads
its `text` and `score` entries. -/
structure ContextDoc where
  text : String
  score : ℚ
deriving DecidableEq, Repr

/-- The dictionary returned by the image adapter on success
(`generate_image`); its entries are opaque to the orchestrator, which only
tests its truthiness and passes it through.  Modelled as a key-value list. -/
structure ImagePayload where
  entries : List (String × String)
deriving DecidableEq, Repr

/-- The value stored under the `response` key of a result dictionary:
a string from a text or code model, or the payload of the image adapter. -/
inductive ResponseValue where
  | text (s : String)
  | image (p : ImagePayload)
deriving DecidableEq, Repr

/-- The `metadata` dictionary of a successful result.  Different branches
populate different optional keys; `model_used` is present in every branch
that builds a metadata dictionary. -/
structure OutMeta where
  model_used : String
  routing : Option RouteResult := none
  context_docs_count : Option Nat := none
  prompt_length : Option Nat := none
  generation_params : Option ImagePayload := none
deriving DecidableEq, Repr

/-- The result dictionary returned by every orchestrator branch.
`response_type` and `metadata` are `Option` because the failure branches of
the source omit those keys entirely. -/
structure GenerationOutcome where
  success : Bool
  query : String
  context : List ContextDoc
  response : Option ResponseValue
  response_type : Option String := none
  error : Option String := none
  metadata : Option OutMeta := none
deriving DecidableEq, Repr

/-- The failure dictionary shape shared by every failure branch of the
orchestrator: `success=False`, an error string, the query, a context list,
`response=None`, and no `response_type` or `metadata` keys. -/
def failure_outcome (error : String) (query : String)
    (context : List ContextDoc) : GenerationOutcome :=
  { success := false, error := some error, query := query, context := context,
    response := none }

/-! ## Prompt formatting (`_format_rag_prompt`) -/

/-- Rendering of a relevance score with two decimal places
(`f-string` `{score:.2f}`), for the non-negative scores the retriever
produces. -/
def format_two_dec (s : ℚ) : String :=
  let c : Int := ⌊s * 100 + 1/2⌋
  let ip := c / 100
  let fp := (c % 100).natAbs
  toString ip ++ "." ++ (if fp < 10 then "0" else "") ++ toString fp

/-- The context-block accumulation loop of `_format_rag_prompt`:
`enumerate(context_docs, 1)`, skipping documents whose stripped text is
empty (their index is still consumed). -/
def context_lines : Nat → List ContextDoc → String
  | _, [] => ""
  | i, doc :: rest =>
      let text := doc.text.trim
      (if text = "" then ""
       else "\n" ++ toString i ++ ". (Relevância: " ++ format_two_dec doc.score
            ++ ") " ++ text ++ "\n")
      ++ context_lines (i + 1) rest

/-- Method `_format_rag_prompt`: backend-specific prompt construction from
the query and the retrieved context documents. -/
def format_rag_prompt (query : String) (context_docs : List ContextDoc)
    (model_type : ModelType) : String :=
  if context_docs.isEmpty then
    if model_type = .CODE then
      "You are an expert programmer. Please help with the following:\n\n"
        ++ query
        ++ "\n\nProvide clean, well-documented code with explanations."
    else
      "Pergunta: " ++ query
        ++ "\n\nResponda da melhor forma possível com base no seu conhecimento."
  else
    let context_text := context_lines 1 context_docs
    if model_type = .CODE then
      "Relevant code documentation and context:\n" ++ context_text
        ++ "\n\nCoding request: " ++ query
        ++ "\n\nBased on the provided context, write clean, efficient code that addresses the request. Include explanations and follow best practices. If the context doesn\u0027t contain enough information, use your programming knowledge and mention any assumptions."
    else
      "Contexto relevante encontrado:\n" ++ context_text
        ++ "\n\nPergunta: " ++ query
        ++ "\n\nCom base no contexto fornecido acima, responda à pergunta de forma clara e precisa. Se o contexto não for suficiente para responder completamente, use seu conhecimento geral, mas indique quando está fazendo isso."

/-! ## Collaborator environment and call trace -/

/-- A call into one of the external collaborators, recorded with the
arguments the orchestrator passed.  The call trace lets theorems speak about
which collaborators a run invoked and with what arguments. -/
inductive CallEvent where
  | retrieve (query_text : String) (top_k : Nat) (score_threshold : ℚ)
  | sd_generate (prompt : String) (width height steps : Nat) (guidance_scale : ℚ)
  | qwen_generate (prompt : String) (context : Option String) (temperature : ℚ)
  | llm_is_available
  | llm_generate (prompt : String) (model : Option String)
deriving DecidableEq, Repr

/-- One behaviour of the external collaborators (retriever, image adapter,
code adapter, text LLM client).  Each operation either returns its Python
value (`Except.ok`, with `Option` for a possibly-`None` result) or raises
(`Except.error` with the exception text `str(e)`). -/
structure Env where
  retrieve : String → Nat → ℚ → Except String (List ContextDoc)
  sd_generate : String → Nat → Nat → Nat → ℚ → Except String (Option ImagePayload)
  qwen_generate : String → Option String → ℚ → Except String (Option String)
  llm_is_available : Except String Bool
  llm_generate : String → Option String → Except String (Option String)
  default_model : String

/-! ## Orchestrator branches -/

/-- Step 2 of `generate_contextual_response`: if a non-empty explicit model
string was supplied, map it to a backend with no scoring and no
`RouteResult`; otherwise classify.  (The Python `if model:` test is false for
`None` and for the empty string.) -/
def resolveRoute (query : String) (model : Option String)
    (metadata : Option Metadata) (prof : MatchProfile) :
    Option RouteResult × ModelType :=
  match model with
  | some m =>
      if m = "" then
        let r := route_request query metadata prof
        (some r, r.model_type)
      else
        (none, model_type_of_value m)
  | none =>
      let r := route_request query metadata prof
      (some r, r.model_type)

/-- The `context` argument of the code adapter call in
`_handle_code_generation`: the document texts joined by blank lines, or
`None` when that text is empty. -/
def code_context_arg (context_docs : List ContextDoc) : Option String :=
  let context_text :=
    if context_docs.isEmpty then ""
    else String.intercalate "\n\n" (context_docs.map (·.text))
  if context_text = "" then none else some context_text

/-- The `temperature` argument of the code adapter call:
`route_result.suggested_parameters.get("temperature", 0.3)` when a routing
decision exists, else `0.3`. -/
def code_temperature (route_result : Option RouteResult) : ℚ :=
  match route_result with
  | some r => r.suggested_parameters.temperature.getD (3/10)
  | none => 3/10

/-- Method `_handle_default_generation`: format the RAG prompt, probe the
text LLM, call it with the explicitly requested model name (if any), and
shape the result.  Paired with the chronological collaborator-call trace. -/
def handle_default_generation (env : Env) (query : String)
    (context_docs : List ContextDoc) (route_result : Option RouteResult)
    (specific_model : Option String) : GenerationOutcome × List CallEvent :=
  let model_type :=
    match route_result with
    | some r => r.model_type
    | none => ModelType.DEFAULT
  let formatted_prompt := format_rag_prompt query context_docs model_type
  match env.llm_is_available with
  | .error e =>
      (failure_outcome ("Generation error: " ++ e) query context_docs,
       [.llm_is_available])
  | .ok false =>
      (failure_outcome "LLM service (Ollama) not available" query context_docs,
       [.llm_is_available])
  | .ok true =>
      match env.llm_generate formatted_prompt specific_model with
      | .error e =>
          (failure_outcome ("Generation error: " ++ e) query context_docs,
           [.llm_is_available, .llm_generate formatted_prompt specific_model])
      | .ok none =>
          (failure_outcome "Failed to generate response from LLM" query context_docs,
           [.llm_is_available, .llm_generate formatted_prompt specific_model])
      | .ok (some llm_response) =>
          ({ success := true, query := query, context := context_docs,
             response := some (.text llm_response),
             response_type := some "text",
             metadata := some
               { model_used :=
                   match specific_model with
                   | some m => if m = "" then env.default_model else m
                   | none => env.default_model,
                 routing := route_result,
                 context_docs_count := some context_docs.length,
                 prompt_length := some formatted_prompt.length } },
           [.llm_is_available, .llm_generate formatted_prompt specific_model])

/-- Method `_handle_code_generation`: call the code adapter; on a truthy
response succeed with `response_type="code"`, otherwise (falsy response or
exception) fall back to `_handle_default_generation` with the same query,
context, and routing decision and no specific model. -/
def handle_code_generation (env : Env) (query : String)
    (context_docs : List ContextDoc) (route_result : Option RouteResult) :
    GenerationOutcome × List CallEvent :=
  let ctx := code_context_arg context_docs
  let temp := code_temperature route_result
  let ev : CallEvent := .qwen_generate query ctx temp
  match env.qwen_generate query ctx temp with
  | .error _ =>
      let fb := handle_default_generation env query context_docs route_result none
      (fb.1, ev :: fb.2)
  | .ok none =>
      let fb := handle_default_generation env query context_docs route_result none
      (fb.1, ev :: fb.2)
  | .ok (some code_response) =>
      if code_response = "" then
        let fb := handle_default_generation env query context_docs route_result none
        (fb.1, ev :: fb.2)
      else
        ({ success := true, query := query, context := context_docs,
           response := some (.text code_response),
           response_type := some "code",
           metadata := some
             { model_used := "qwen3:coder",
               context_docs_count := some context_docs.length,
               routing := route_result } },
         [ev])

/-- Method `_handle_image_generation`: call the image adapter with
parameters from the routing decision (or defaults) and shape the result.
No fallback: a falsy payload or an exception yields a failure outcome. -/
def handle_image_generation (env : Env) (query : String)
    (route_result : Option RouteResult) : GenerationOutcome × List CallEvent :=
  let params :=
    match route_result with
    | some r => r.suggested_parameters
    | none => GenParams.empty
  let width := params.width.getD 512
  let height := params.height.getD 512
  let steps := params.steps.getD 30
  let guidance := params.guidance_scale.getD (15/2)
  let ev : CallEvent := .sd_generate query width height steps guidance
  match env.sd_generate query width height steps guidance with
  | .error e =>
      (failure_outcome ("Image generation error: " ++ e) query [], [ev])
  | .ok none =>
      (failure_outcome "Failed to generate image" query [], [ev])
  | .ok (some image_result) =>
      if image_result.entries.isEmpty then
        (failure_outcome "Failed to generate image" query [], [ev])
      else
        ({ success := true, query := query, context := [],
           response := some (.image image_result),
           response_type := some "image",
           metadata := some
             { model_used := "stable-diffusion",
               routing := route_result,
               generation_params := some image_result } },
         [ev])

/-- Method `generate_contextual_response`, the dispatcher: validate the
query, resolve the route, terminate in the image branch before retrieval,
otherwise retrieve context (exceptions from the retriever reach the outer
handler and become an internal-error failure with empty context), then
dispatch to the code or default branch. -/
def generate_contextual_response (env : Env) (query : String)
    (max_context_docs : Nat) (context_score_threshold : ℚ)
    (model : Option String) (metadata : Option Metadata)
    (prof : MatchProfile) : GenerationOutcome × List CallEvent :=
  if is_blank query then
    (failure_outcome "Empty query provided" query [], [])
  else
    let routed := resolveRoute query model metadata prof
    let route_result := routed.1
    let model_type := routed.2
    if model_type = .IMAGE then
      handle_image_generation env query route_result
    else
      let use_rag := model_type ∈ [ModelType.DEFAULT, ModelType.CODE, ModelType.WEB_SEARCH]
      let threshold :=
        if model_type = .CODE then min context_score_threshold (3/10)
        else context_score_threshold
      if use_rag then
        let ev : CallEvent := .retrieve query max_context_docs threshold
        match env.retrieve query max_context_docs threshold with
        | .error e =>
            (failure_outcome ("Internal error: " ++ e) query [], [ev])
        | .ok context_docs =>
            if model_type = .CODE then
              let r := handle_code_generation env query context_docs route_result
              (r.1, ev :: r.2)
            else
              let r := handle_default_generation env query context_docs route_result model
              (r.1, ev :: r.2)
      else
        if model_type = .CODE then
          handle_code_generation env query [] route_result
        else
          handle_default_generation env query [] route_result model

/-! ## Specification-side definitions

These follow the wording of the specification (not the source) and are used
only to compare the source behaviour against the spec in refinement
theorems. -/

/-- Spec wording of a family confidence: raw confidence
`min(matched / total * family_scale, 1.0)`, plus a fixed booster bonus,
capped at 1.0, when the family has a booster and it matched. -/
def spec_family_confidence (matched total : Nat) (family_scale : ℚ)
    (booster_bonus : Option ℚ) (booster_matched : Bool) : ℚ :=
  let raw := min ((matched : ℚ) / (total : ℚ) * family_scale) 1
  match booster_bonus, booster_matched with
  | some b, true => min (raw + b) 1
  | some _, false => raw
  | none, _ => raw

/-- Spec wording of candidate selection: from
`[(CODE, code_conf), (IMAGE, image_conf), (FRESH, fresh_conf), (DEFAULT, 0.5)]`
pick the maximum confidence, ties broken in the listed order
CODE > IMAGE > FRESH > DEFAULT. -/
def spec_select (code_conf image_conf fresh_conf : ℚ) : ModelType × ℚ :=
  if image_conf ≤ code_conf ∧ fresh_conf ≤ code_conf ∧ 1/2 ≤ code_conf then
    (.CODE, code_conf)
  else if fresh_conf ≤ image_conf ∧ 1/2 ≤ image_conf then
    (.IMAGE, image_conf)
  else if 1/2 ≤ fresh_conf then
    (.WEB_SEARCH, fresh_conf)
  else
    (.DEFAULT, 1/2)

/-- Spec wording of the minimum-confidence gate: a selected non-default
backend with confidence below 0.4 is overridden to DEFAULT with
confidence 0.5. -/
def spec_min_confidence_gate (sel : ModelType × ℚ) : ModelType × ℚ :=
  if sel.2 < 2/5 ∧ sel.1 ≠ .DEFAULT then (.DEFAULT, 1/2) else sel

/-! ## Trace predicates and concrete fixtures -/

/-- Every retrieval call in the trace used the expected score threshold. -/
def retrieve_threshold_ok (events : List CallEvent) (expected : ℚ) : Bool :=
  events.all fun e =>
    match e with
    | .retrieve _ _ t => decide (t = expected)
    | _ => true

/-- The trace contains no retrieval call. -/
def no_retrieve_calls (events : List CallEvent) : Bool :=
  events.all fun e =>
    match e with
    | .retrieve _ _ _ => false
    | _ => true

/-- Every text-LLM generation call in the trace passed the expected model
argument. -/
def llm_model_args_eq (events : List CallEvent) (expected : Option String) : Bool :=
  events.all fun e =>
    match e with
    | .llm_generate _ m => decide (m = expected)
    | _ => true

/-- Decidable form of the explicit-selector condition of `route_request`:
the metadata carries a `preferred_model` entry naming a known backend. -/
def has_explicit_selector (metadata : Option Metadata) : Bool :=
  match metadata_preferred metadata with
  | some p => decide (p ∈ known_model_values)
  | none => false

/-- Decidable form of "the code adapter returned no (truthy) output or
raised": the dispatcher falls back exactly when this holds of the adapter
result. -/
def code_adapter_output_falsy : Except String (Option String) → Bool
  | .ok (some s) => decide (s = "")
  | .ok none => true
  | .error _ => true

/-- A match profile on which no pattern of any family matched. -/
def prof0 : MatchProfile :=
  { codeMatches := 0, codeBoost := false, imageMatches := 0,
    imageBoost := false, webMatches := 0 }

/-- A match profile on which every code pattern and the code booster
matched (a strongly code-flavoured prompt). -/
def prof_code : MatchProfile :=
  { codeMatches := 7, codeBoost := true, imageMatches := 0,
    imageBoost := false, webMatches := 0 }

/-- A match profile on which every image pattern and the image booster
matched (a strongly image-flavoured prompt). -/
def prof_image : MatchProfile :=
  { codeMatches := 0, codeBoost := false, imageMatches := 6,
    imageBoost := true, webMatches := 0 }

/-- A concrete image payload for witness runs. -/
def sample_payload : ImagePayload := { entries := [("image_base64", "QUJD")] }

/-- A collaborator behaviour on which every backend works. -/
def env_happy : Env :=
  { retrieve := fun _ _ _ => .ok [],
    sd_generate := fun _ _ _ _ _ => .ok (some sample_payload),
    qwen_generate := fun _ _ _ => .ok (some "codigo"),
    llm_is_available := .ok true,
    llm_generate := fun _ _ => .ok (some "resposta"),
    default_model := "mistral" }

/-- A collaborator behaviour on which the code adapter returns `None` and
everything else works. -/
def env_code_down : Env :=
  { env_happy with qwen_generate := fun _ _ _ => .ok none }

/-- A collaborator behaviour on which the code adapter returns `None` and
the text LLM is unavailable. -/
def env_all_down : Env :=
  { env_happy with
    qwen_generate := fun _ _ _ => .ok none,
    llm_is_available := .ok false }

/-! ## Helper lemmas -/

/-- A boosted family confidence stays inside `[0, 1]`. -/
lemma boosted_conf_bounds (x b : ℚ) (hx : 0 ≤ x) (hb : 0 ≤ b) :
    0 ≤ min (min x 1 + b) 1 ∧ min (min x 1 + b) 1 ≤ 1 := by
  have h1 : (0:ℚ) ≤ min x 1 := le_min hx (by norm_num)
  exact ⟨le_min (by linarith) (by norm_num), min_le_right _ _⟩

/-- The code-family confidence lies in `[0, 1]`. -/
lemma analyze_code_intent_bounds (prof : MatchProfile) :
    0 ≤ analyze_code_intent prof ∧ analyze_code_intent prof ≤ 1 := by
  unfold analyze_code_intent
  have hx : (0:ℚ) ≤ (prof.codeMatches : ℚ) / (code_patterns.length : ℚ) * 2 := by
    positivity
  cases prof.codeBoost with
  | false =>
      simp only [Bool.false_eq_true, if_false]
      exact ⟨le_min hx (by norm_num), min_le_right _ _⟩
  | true =>
      simp only [if_true]
      exact boosted_conf_bounds _ _ hx (by norm_num)

/-- The image-family confidence lies in `[0, 1]`. -/
lemma analyze_image_intent_bounds (prof : MatchProfile) :
    0 ≤ analyze_image_intent prof ∧ analyze_image_intent prof ≤ 1 := by
  unfold analyze_image_intent
  have hx : (0:ℚ) ≤ (prof.imageMatches : ℚ) / (image_patterns.length : ℚ) * 3 := by
    positivity
  cases prof.imageBoost with
  | false =>
      simp only [Bool.false_eq_true, if_false]
      exact ⟨le_min hx (by norm_num), min_le_right _ _⟩
  | true =>
      simp only [if_true]
      exact boosted_conf_bounds _ _ hx (by norm_num)

/-- The freshness-family confidence lies in `[0, 1]`. -/
lemma analyze_web_search_intent_bounds (prof : MatchProfile) :
    0 ≤ analyze_web_search_intent prof ∧ analyze_web_search_intent prof ≤ 1 := by
  unfold analyze_web_search_intent
  have hx : (0:ℚ) ≤ (prof.webMatches : ℚ) / (web_search_patterns.length : ℚ) * (5/2) := by
    positivity
  exact ⟨le_min hx (by norm_num), min_le_right _ _⟩

/-- The candidate kept by `select_top` always has confidence at least 0.5,
because the DEFAULT fallback candidate carries 0.5. -/
lemma select_top_ge_half (prof : MatchProfile) :
    1/2 ≤ (select_top (candidate_list prof)).2.1 := by
  unfold select_top candidate_list
  simp only [List.foldl]
  split_ifs <;> dsimp only at * <;> linarith

/-- The minimum-confidence gate leaves any candidate with confidence at
least 0.4 unchanged. -/
lemma apply_min_confidence_of_ge (c : ModelType × ℚ × String)
    (h : 2/5 ≤ c.2.1) : apply_min_confidence c = c := by
  obtain ⟨m, conf, r⟩ := c
  dsimp only at h
  unfold apply_min_confidence
  exact if_neg fun hc => absurd hc.1 (not_lt.mpr h)

/-- The stable-sort-then-head selection of the source coincides with the
spec-worded "maximum confidence, ties broken in listed order" selection,
for any four candidate confidences. -/
lemma select_top_eq_spec (cc ic wc : ℚ) (rc ri rw' rd : String) :
    ((select_top [(ModelType.CODE, cc, rc), (ModelType.IMAGE, ic, ri),
        (ModelType.WEB_SEARCH, wc, rw'), (ModelType.DEFAULT, 1/2, rd)]).1,
     (select_top [(ModelType.CODE, cc, rc), (ModelType.IMAGE, ic, ri),
        (ModelType.WEB_SEARCH, wc, rw'), (ModelType.DEFAULT, 1/2, rd)]).2.1)
      = spec_select cc ic wc := by
  unfold select_top spec_select
  simp only [List.foldl]
  try dsimp only
  by_cases h1 : cc < ic
  · simp only [if_pos h1]
    try dsimp only
    by_cases h2 : ic < wc
    · simp only [if_pos h2]
      try dsimp only
      by_cases h3 : wc < 1/2
      · simp only [if_pos h3]
        have s1 : ¬(ic ≤ cc ∧ wc ≤ cc ∧ 1/2 ≤ cc) := by rintro ⟨ha, hb, hc⟩; linarith
        have s2 : ¬(wc ≤ ic ∧ 1/2 ≤ ic) := by rintro ⟨ha, hb⟩; linarith
        have s3 : ¬((1:ℚ)/2 ≤ wc) := by intro ha; linarith
        rw [if_neg s1, if_neg s2, if_neg s3]
      · simp only [if_neg h3]
        have s1 : ¬(ic ≤ cc ∧ wc ≤ cc ∧ 1/2 ≤ cc) := by rintro ⟨ha, hb, hc⟩; linarith
        have s2 : ¬(wc ≤ ic ∧ 1/2 ≤ ic) := by rintro ⟨ha, hb⟩; linarith
        have s3 : (1:ℚ)/2 ≤ wc := by linarith
        rw [if_neg s1, if_neg s2, if_pos s3]
    · simp only [if_neg h2]
      try dsimp only
      by_cases h3 : ic < 1/2
      · simp only [if_pos h3]
        have s1 : ¬(ic ≤ cc ∧ wc ≤ cc ∧ 1/2 ≤ cc) := by rintro ⟨ha, hb, hc⟩; linarith
        have s2 : ¬(wc ≤ ic ∧ 1/2 ≤ ic) := by rintro ⟨ha, hb⟩; linarith
        have s3 : ¬((1:ℚ)/2 ≤ wc) := by intro ha; linarith
        rw [if_neg s1, if_neg s2, if_neg s3]
      · simp only [if_neg h3]
        have s1 : ¬(ic ≤ cc ∧ wc ≤ cc ∧ 1/2 ≤ cc) := by rintro ⟨ha, hb, hc⟩; linarith
        have s2 : wc ≤ ic ∧ 1/2 ≤ ic := ⟨by linarith, by linarith⟩
        rw [if_neg s1, if_pos s2]
  · simp only [if_neg h1]
    try dsimp only
    by_cases h2 : cc < wc
    · simp only [if_pos h2]
      try dsimp only
      by_cases h3 : wc < 1/2
      · simp only [if_pos h3]
        have s1 : ¬(ic ≤ cc ∧ wc ≤ cc ∧ 1/2 ≤ cc) := by rintro ⟨ha, hb, hc⟩; linarith
        have s2 : ¬(wc ≤ ic ∧ 1/2 ≤ ic) := by rintro ⟨ha, hb⟩; linarith
        have s3 : ¬((1:ℚ)/2 ≤ wc) := by intro ha; linarith
        rw [if_neg s1, if_neg s2, if_neg s3]
      · simp only [if_neg h3]
        have s1 : ¬(ic ≤ cc ∧ wc ≤ cc ∧ 1/2 ≤ cc) := by rintro ⟨ha, hb, hc⟩; linarith
        have s2 : ¬(wc ≤ ic ∧ 1/2 ≤ ic) := by rintro ⟨ha, hb⟩; linarith
        have s3 : (1:ℚ)/2 ≤ wc := by linarith
        rw [if_neg s1, if_neg s2, if_pos s3]
    · simp only [if_neg h2]
      try dsimp only
      by_cases h3 : cc < 1/2
      · simp only [if_pos h3]
        have s1 : ¬(ic ≤ cc ∧ wc ≤ cc ∧ 1/2 ≤ cc) := by rintro ⟨ha, hb, hc⟩; linarith
        have s2 : ¬(wc ≤ ic ∧ 1/2 ≤ ic) := by rintro ⟨ha, hb⟩; linarith
        have s3 : ¬((1:ℚ)/2 ≤ wc) := by intro ha; linarith
        rw [if_neg s1, if_neg s2, if_neg s3]
      · simp only [if_neg h3]
        have s1 : ic ≤ cc ∧ wc ≤ cc ∧ 1/2 ≤ cc := ⟨by linarith, by linarith, by linarith⟩
        rw [if_pos s1]

/-- The spec-worded selection also never drops below confidence 0.5. -/
lemma spec_select_ge_half (cc ic wc : ℚ) : 1/2 ≤ (spec_select cc ic wc).2 := by
  unfold spec_select
  split_ifs with a b c
  · exact a.2.2
  · exact b.2
  · exact c
  · norm_num

/-- The spec-worded gate leaves a selection with confidence at least 0.4
unchanged. -/
lemma spec_gate_of_ge (s : ModelType × ℚ) (h : 2/5 ≤ s.2) :
    spec_min_confidence_gate s = s := by
  unfold spec_min_confidence_gate
  exact if_neg fun hc => absurd hc.1 (not_lt.mpr h)

/-- With a non-empty prompt and no explicit selector, `route_request` takes
the scoring path. -/
lemma route_request_score (prompt : String) (metadata : Option Metadata)
    (prof : MatchProfile) (hq : is_blank prompt = false)
    (hns : has_explicit_selector metadata = false) :
    route_request prompt metadata prof = route_score prompt prof := by
  unfold route_request
  rw [if_neg (by simp [hq])]
  unfold has_explicit_selector at hns
  cases hmp : metadata_preferred metadata with
  | none => rfl
  | some p =>
      rw [hmp] at hns
      have hd : decide (p ∈ known_model_values) = false := hns
      exact if_neg (of_decide_eq_false hd)

/-- The scoring path realizes exactly the spec-worded selection followed by
the spec-worded minimum-confidence gate. -/
lemma route_score_eq_spec (prompt : String) (prof : MatchProfile) :
    ((route_score prompt prof).model_type, (route_score prompt prof).confidence)
      = spec_min_confidence_gate (spec_select (analyze_code_intent prof)
          (analyze_image_intent prof) (analyze_web_search_intent prof)) := by
  have hsel := select_top_ge_half prof
  have hgate := apply_min_confidence_of_ge _ (le_trans (by norm_num) hsel)
  have hspec := spec_select_ge_half (analyze_code_intent prof)
    (analyze_image_intent prof) (analyze_web_search_intent prof)
  rw [spec_gate_of_ge _ (le_trans (by norm_num) hspec)]
  unfold route_score
  dsimp only
  rw [hgate]
  unfold candidate_list
  exact select_top_eq_spec (analyze_code_intent prof) (analyze_image_intent prof)
    (analyze_web_search_intent prof) "Code-related keywords and patterns detected"
    "Image generation request detected" "Current information request detected"
    "General query, using default model"

/-- With a non-empty prompt and a known `preferred_model`, `route_request`
returns the explicit-selector decision. -/
lemma route_request_explicit (prompt : String) (metadata : Option Metadata)
    (prof : MatchProfile) (p : String) (hq : is_blank prompt = false)
    (hmp : metadata_preferred metadata = some p) (hk : p ∈ known_model_values) :
    route_request prompt metadata prof =
      { model_type := model_type_of_value p, confidence := 1,
        reasoning := "Explicitly requested model: " ++ p,
        suggested_parameters := get_model_parameters (model_type_of_value p) prompt } := by
  unfold route_request
  rw [if_neg (by simp [hq]), hmp]
  exact if_pos hk

/-! ## Claim theorems (router) -/

/-- C5: each rule-family confidence equals
`min(matched / total * family_scale, 1.0)` with scales code=2.0, image=3.0,
freshness=2.5, boosted by a fixed bonus (+0.3 code, +0.4 image, none for
freshness) capped at 1.0 when the compound pattern also matches; and every
family confidence lies in `[0, 1]`. -/
theorem C5_family_confidence (prof : MatchProfile) :
    analyze_code_intent prof
      = spec_family_confidence prof.codeMatches code_patterns.length 2
          (some (3/10)) prof.codeBoost
    ∧ analyze_image_intent prof
      = spec_family_confidence prof.imageMatches image_patterns.length 3
          (some (2/5)) prof.imageBoost
    ∧ analyze_web_search_intent prof
      = spec_family_confidence prof.webMatches web_search_patterns.length (5/2)
          none false
    ∧ (0 ≤ analyze_code_intent prof ∧ analyze_code_intent prof ≤ 1)
    ∧ (0 ≤ analyze_image_intent prof ∧ analyze_image_intent prof ≤ 1)
    ∧ (0 ≤ analyze_web_search_intent prof ∧ analyze_web_search_intent prof ≤ 1) := by
  obtain ⟨cm, cb, im, ib, wm⟩ := prof
  refine ⟨?_, ?_, ?_, analyze_code_intent_bounds _, analyze_image_intent_bounds _,
    analyze_web_search_intent_bounds _⟩
  · cases cb <;> rfl
  · cases ib <;> rfl
  · rfl

/-- C9: every routing decision carries confidence at least 0.5 (the DEFAULT
candidate floors the maximum, and the short-circuit paths return 1.0), so
the minimum-confidence override is the identity on the selected candidate. -/
theorem C9_confidence_floor (prompt : String) (metadata : Option Metadata)
    (prof : MatchProfile) :
    1/2 ≤ (route_request prompt metadata prof).confidence
    ∧ apply_min_confidence (select_top (candidate_list prof))
        = select_top (candidate_list prof) := by
  have hsel := select_top_ge_half prof
  have hgate := apply_min_confidence_of_ge _ (le_trans (by norm_num) hsel)
  refine ⟨?_, hgate⟩
  by_cases hq : is_blank prompt = true
  · unfold route_request
    rw [if_pos hq]
    norm_num
  · have hq' : is_blank prompt = false := by simpa using hq
    cases hx : has_explicit_selector metadata with
    | false =>
        rw [route_request_score prompt metadata prof hq' hx]
        unfold route_score
        dsimp only
        rw [hgate]
        exact hsel
    | true =>
        unfold has_explicit_selector at hx
        cases hmp : metadata_preferred metadata with
        | none =>
            rw [hmp] at hx
            exact absurd hx Bool.false_ne_true
        | some p =>
            rw [hmp] at hx
            have hk : p ∈ known_model_values := of_decide_eq_true hx
            rw [route_request_explicit prompt metadata prof p hq' hmp hk]
            norm_num

/-- C2 counterexample: with an empty query and an explicit known selector,
`route_request` applies the empty-query rule first and returns DEFAULT, so
the explicit selector does not take precedence over the empty-query rule. -/
theorem C2_counterexample :
    (route_request "" (some { preferred_model := some "qwen3:coder" }) prof0).model_type
        = ModelType.DEFAULT
    ∧ ¬((route_request "" (some { preferred_model := some "qwen3:coder" }) prof0).model_type
          = ModelType.CODE
        ∧ (route_request "" (some { preferred_model := some "qwen3:coder" }) prof0).confidence
            = 1) := by
  decide

/-- C2 (amended): for every query that is not blank (not empty or whitespace-only) and
every metadata whose `preferred_model` equals a known backend value,
`route_request` returns that backend with confidence exactly 1.0 regardless
of the pattern-match outcome; the empty-query rule, checked first, takes
precedence over the explicit selector. -/
theorem C2_explicit_selector (prompt : String) (metadata : Option Metadata)
    (prof : MatchProfile) (p : String) (hq : is_blank prompt = false)
    (hmp : metadata_preferred metadata = some p) (hk : p ∈ known_model_values) :
    (route_request prompt metadata prof).model_type = model_type_of_value p
    ∧ (route_request prompt metadata prof).confidence = 1 := by
  rw [route_request_explicit prompt metadata prof p hq hmp hk]
  exact ⟨rfl, rfl⟩

/-- Witness for C2 (amended) at a concrete non-empty query. -/
theorem C2_witness :
    (is_blank "hello" = false
      ∧ metadata_preferred (some { preferred_model := some "stable-diffusion" })
          = some "stable-diffusion"
      ∧ "stable-diffusion" ∈ known_model_values)
    ∧ ((route_request "hello" (some { preferred_model := some "stable-diffusion" })
          prof0).model_type = model_type_of_value "stable-diffusion"
      ∧ (route_request "hello" (some { preferred_model := some "stable-diffusion" })
          prof0).confidence = 1) :=
  ⟨⟨by decide, rfl, by decide⟩,
   C2_explicit_selector "hello" (some { preferred_model := some "stable-diffusion" })
     prof0 "stable-diffusion" (by decide) rfl (by decide)⟩

/-- C4: for every non-empty query without an explicit selector, the routing
decision is exactly the spec-worded selection (maximum confidence over the
candidate list, ties broken CODE > IMAGE > FRESH > DEFAULT) followed by the
spec-worded minimum-confidence gate. -/
theorem C4_candidate_selection (prompt : String) (metadata : Option Metadata)
    (prof : MatchProfile) (hq : is_blank prompt = false)
    (hns : has_explicit_selector metadata = false) :
    ((route_request prompt metadata prof).model_type,
      (route_request prompt metadata prof).confidence)
      = spec_min_confidence_gate (spec_select (analyze_code_intent prof)
          (analyze_image_intent prof) (analyze_web_search_intent prof)) := by
  rw [route_request_score prompt metadata prof hq hns]
  exact route_score_eq_spec prompt prof

/-- Witness for C4 at a concrete code-flavoured input. -/
theorem C4_witness :
    (is_blank "write a python function" = false ∧ has_explicit_selector none = false)
    ∧ ((route_request "write a python function" none prof_code).model_type,
        (route_request "write a python function" none prof_code).confidence)
        = spec_min_confidence_gate (spec_select (analyze_code_intent prof_code)
            (analyze_image_intent prof_code) (analyze_web_search_intent prof_code)) :=
  ⟨⟨by decide, rfl⟩, C4_candidate_selection _ none prof_code (by decide) rfl⟩

/-! ## Helper lemmas (orchestrator) -/

/-- In the default branch, the response is absent exactly on failure. -/
lemma handle_default_response_iff (env : Env) (query : String)
    (docs : List ContextDoc) (rr : Option RouteResult) (sm : Option String) :
    ((handle_default_generation env query docs rr sm).1.response = none
      ↔ (handle_default_generation env query docs rr sm).1.success = false) := by
  unfold handle_default_generation
  dsimp only
  split
  · simp [failure_outcome]
  · simp [failure_outcome]
  · split
    · simp [failure_outcome]
    · simp [failure_outcome]
    · simp

/-- In the code branch, the response is absent exactly on failure. -/
lemma handle_code_response_iff (env : Env) (query : String)
    (docs : List ContextDoc) (rr : Option RouteResult) :
    ((handle_code_generation env query docs rr).1.response = none
      ↔ (handle_code_generation env query docs rr).1.success = false) := by
  unfold handle_code_generation
  dsimp only
  split
  · exact handle_default_response_iff env query docs rr none
  · exact handle_default_response_iff env query docs rr none
  · split
    · exact handle_default_response_iff env query docs rr none
    · simp

/-- In the image branch, the response is absent exactly on failure. -/
lemma handle_image_response_iff (env : Env) (query : String)
    (rr : Option RouteResult) :
    ((handle_image_generation env query rr).1.response = none
      ↔ (handle_image_generation env query rr).1.success = false) := by
  unfold handle_image_generation
  dsimp only
  split
  · simp [failure_outcome]
  · simp [failure_outcome]
  · split
    · simp [failure_outcome]
    · simp

/-! ## Claim theorems (orchestrator) -/

/-- C1: for every input and every collaborator behaviour, the outcome of
the dispatcher has `response = None` exactly when `success = False`. -/
theorem C1_response_none_iff_failure (env : Env) (query : String)
    (max_context_docs : Nat) (context_score_threshold : ℚ)
    (model : Option String) (metadata : Option Metadata) (prof : MatchProfile) :
    ((generate_contextual_response env query max_context_docs
        context_score_threshold model metadata prof).1.response = none
      ↔ (generate_contextual_response env query max_context_docs
          context_score_threshold model metadata prof).1.success = false) := by
  unfold generate_contextual_response
  dsimp only
  split
  · simp [failure_outcome]
  · split
    · exact handle_image_response_iff env query _
    · split
      · split
        · simp [failure_outcome]
        · split
          · exact handle_code_response_iff env query _ _
          · exact handle_default_response_iff env query _ _ model
      · split
        · exact handle_code_response_iff env query _ _
        · exact handle_default_response_iff env query _ _ model

/-- The default branch never calls the retriever. -/
lemma handle_default_no_retrieve (env : Env) (query : String)
    (docs : List ContextDoc) (rr : Option RouteResult) (sm : Option String) :
    no_retrieve_calls (handle_default_generation env query docs rr sm).2 = true := by
  unfold handle_default_generation
  dsimp only
  split
  · rfl
  · rfl
  · split <;> rfl

/-- The code branch never calls the retriever. -/
lemma handle_code_no_retrieve (env : Env) (query : String)
    (docs : List ContextDoc) (rr : Option RouteResult) :
    no_retrieve_calls (handle_code_generation env query docs rr).2 = true := by
  unfold handle_code_generation
  dsimp only
  split
  · simp only [no_retrieve_calls, List.all_cons, Bool.and_eq_true]
    exact ⟨trivial, handle_default_no_retrieve env query docs rr none⟩
  · simp only [no_retrieve_calls, List.all_cons, Bool.and_eq_true]
    exact ⟨trivial, handle_default_no_retrieve env query docs rr none⟩
  · split
    · simp only [no_retrieve_calls, List.all_cons, Bool.and_eq_true]
      exact ⟨trivial, handle_default_no_retrieve env query docs rr none⟩
    · rfl

/-- The image branch never calls the retriever. -/
lemma handle_image_no_retrieve (env : Env) (query : String)
    (rr : Option RouteResult) :
    no_retrieve_calls (handle_image_generation env query rr).2 = true := by
  unfold handle_image_generation
  dsimp only
  split
  · rfl
  · rfl
  · split <;> rfl

/-- A trace without retrieval calls trivially satisfies any threshold
condition on retrieval calls. -/
lemma threshold_ok_of_no_retrieve (events : List CallEvent) (x : ℚ)
    (h : no_retrieve_calls events = true) :
    retrieve_threshold_ok events x = true := by
  induction events with
  | nil => rfl
  | cons e rest ih =>
      simp only [no_retrieve_calls, List.all_cons, Bool.and_eq_true] at h
      simp only [retrieve_threshold_ok, List.all_cons, Bool.and_eq_true]
      refine ⟨?_, ih h.2⟩
      cases e <;> simp_all

/-- C7: whenever the resolved routing decision is the IMAGE backend, the
dispatcher never invokes the retrieval collaborator — the image branch
terminates before the retrieval step. -/
theorem C7_image_no_retrieval (env : Env) (query : String)
    (max_context_docs : Nat) (context_score_threshold : ℚ)
    (model : Option String) (metadata : Option Metadata) (prof : MatchProfile)
    (hroute : (resolveRoute query model metadata prof).2 = ModelType.IMAGE) :
    no_retrieve_calls (generate_contextual_response env query max_context_docs
        context_score_threshold model metadata prof).2 = true := by
  unfold generate_contextual_response
  dsimp only
  split
  · rfl
  · exact handle_image_no_retrieve env query _

/-- Witness for C7: an image-classified query never triggers retrieval. -/
theorem C7_witness :
    (resolveRoute "draw a picture of a red bicycle" none none prof_image).2
        = ModelType.IMAGE
    ∧ no_retrieve_calls (generate_contextual_response env_happy
        "draw a picture of a red bicycle" 3 (1/2) none none prof_image).2 = true :=
  ⟨by with_unfolding_all decide,
   C7_image_no_retrieval env_happy "draw a picture of a red bicycle" 3 (1/2)
     none none prof_image (by with_unfolding_all decide)⟩

/-- C6: whenever the resolved routing decision is the CODE backend, every
retrieval call in the trace uses the effective threshold
`min(requested_threshold, 0.3)`. -/
theorem C6_code_threshold (env : Env) (query : String)
    (max_context_docs : Nat) (context_score_threshold : ℚ)
    (model : Option String) (metadata : Option Metadata) (prof : MatchProfile)
    (hroute : (resolveRoute query model metadata prof).2 = ModelType.CODE) :
    retrieve_threshold_ok (generate_contextual_response env query max_context_docs
        context_score_threshold model metadata prof).2
      (min context_score_threshold (3/10)) = true := by
  unfold generate_contextual_response
  dsimp only
  split
  · rfl
  · rw [hroute]
    rw [if_neg (by decide : ¬(ModelType.CODE = ModelType.IMAGE))]
    rw [if_pos (by decide : ModelType.CODE
          ∈ [ModelType.DEFAULT, ModelType.CODE, ModelType.WEB_SEARCH])]
    cases hret : env.retrieve query max_context_docs
        (min context_score_threshold (3/10)) with
    | error e =>
        simp [retrieve_threshold_ok]
    | ok docs =>
        simp only [retrieve_threshold_ok, List.all_cons, Bool.and_eq_true,
          decide_eq_true_eq]
        exact ⟨trivial, threshold_ok_of_no_retrieve _ _
          (handle_code_no_retrieve env query docs _)⟩

/-- Witness for C6 at a concrete explicitly code-routed request with a
requested threshold above 0.3. -/
theorem C6_witness :
    (resolveRoute "explain this" (some "qwen3:coder") none prof0).2 = ModelType.CODE
    ∧ retrieve_threshold_ok (generate_contextual_response env_happy "explain this"
        3 (1/2) (some "qwen3:coder") none prof0).2 (min (1/2) (3/10)) = true :=
  ⟨by with_unfolding_all decide,
   C6_code_threshold env_happy "explain this" 3 (1/2) (some "qwen3:coder")
     none prof0 (by with_unfolding_all decide)⟩

/-- Metadata shape of the default branch: present with the routing decision
on success, absent on failure. -/
lemma handle_default_meta (env : Env) (query : String) (docs : List ContextDoc)
    (rr : Option RouteResult) (sm : Option String) :
    ((handle_default_generation env query docs rr sm).1.success = true →
      Option.map OutMeta.routing
          (handle_default_generation env query docs rr sm).1.metadata = some rr)
    ∧ ((handle_default_generation env query docs rr sm).1.success = false →
      (handle_default_generation env query docs rr sm).1.metadata = none) := by
  unfold handle_default_generation
  dsimp only
  split
  · exact ⟨fun h => by simp [failure_outcome] at h, fun _ => rfl⟩
  · exact ⟨fun h => by simp [failure_outcome] at h, fun _ => rfl⟩
  · split
    · exact ⟨fun h => by simp [failure_outcome] at h, fun _ => rfl⟩
    · exact ⟨fun h => by simp [failure_outcome] at h, fun _ => rfl⟩
    · exact ⟨fun _ => rfl, fun h => by simp at h⟩

/-- Metadata shape of the code branch: present with the routing decision on
success (directly or through the fallback), absent on failure. -/
lemma handle_code_meta (env : Env) (query : String) (docs : List ContextDoc)
    (rr : Option RouteResult) :
    ((handle_code_generation env query docs rr).1.success = true →
      Option.map OutMeta.routing
          (handle_code_generation env query docs rr).1.metadata = some rr)
    ∧ ((handle_code_generation env query docs rr).1.success = false →
      (handle_code_generation env query docs rr).1.metadata = none) := by
  unfold handle_code_generation
  dsimp only
  split
  · exact handle_default_meta env query docs rr none
  · exact handle_default_meta env query docs rr none
  · split
    · exact handle_default_meta env query docs rr none
    · exact ⟨fun _ => rfl, fun h => by simp at h⟩

/-- Metadata shape of the image branch: present with the routing decision
on success, absent on failure. -/
lemma handle_image_meta (env : Env) (query : String) (rr : Option RouteResult) :
    ((handle_image_generation env query rr).1.success = true →
      Option.map OutMeta.routing
          (handle_image_generation env query rr).1.metadata = some rr)
    ∧ ((handle_image_generation env query rr).1.success = false →
      (handle_image_generation env query rr).1.metadata = none) := by
  unfold handle_image_generation
  dsimp only
  split
  · exact ⟨fun h => by simp [failure_outcome] at h, fun _ => rfl⟩
  · exact ⟨fun h => by simp [failure_outcome] at h, fun _ => rfl⟩
  · split
    · exact ⟨fun h => by simp [failure_outcome] at h, fun _ => rfl⟩
    · exact ⟨fun _ => rfl, fun h => by simp at h⟩

/-- On failure, the default branch omits both the metadata and the
`response_type` keys. -/
lemma handle_default_failure_fields (env : Env) (query : String)
    (docs : List ContextDoc) (rr : Option RouteResult) (sm : Option String) :
    (handle_default_generation env query docs rr sm).1.success = false →
    ((handle_default_generation env query docs rr sm).1.metadata = none
      ∧ (handle_default_generation env query docs rr sm).1.response_type = none) := by
  unfold handle_default_generation
  dsimp only
  split
  · exact fun _ => ⟨rfl, rfl⟩
  · exact fun _ => ⟨rfl, rfl⟩
  · split
    · exact fun _ => ⟨rfl, rfl⟩
    · exact fun _ => ⟨rfl, rfl⟩
    · exact fun h => by simp at h

/-- On failure, the code branch omits both the metadata and the
`response_type` keys. -/
lemma handle_code_failure_fields (env : Env) (query : String)
    (docs : List ContextDoc) (rr : Option RouteResult) :
    (handle_code_generation env query docs rr).1.success = false →
    ((handle_code_generation env query docs rr).1.metadata = none
      ∧ (handle_code_generation env query docs rr).1.response_type = none) := by
  unfold handle_code_generation
  dsimp only
  split
  · exact handle_default_failure_fields env query docs rr none
  · exact handle_default_failure_fields env query docs rr none
  · split
    · exact handle_default_failure_fields env query docs rr none
    · exact fun h => by simp at h

/-- On failure, the image branch omits both the metadata and the
`response_type` keys. -/
lemma handle_image_failure_fields (env : Env) (query : String)
    (rr : Option RouteResult) :
    (handle_image_generation env query rr).1.success = false →
    ((handle_image_generation env query rr).1.metadata = none
      ∧ (handle_image_generation env query rr).1.response_type = none) := by
  unfold handle_image_generation
  dsimp only
  split
  · exact fun _ => ⟨rfl, rfl⟩
  · exact fun _ => ⟨rfl, rfl⟩
  · split
    · exact fun _ => ⟨rfl, rfl⟩
    · exact fun h => by simp at h

/-- C8 counterexample: the empty-query failure branch returns an outcome
with no metadata and no `response_type` key at all, so not every branch is
fully populated with metadata naming the model used. -/
theorem C8_counterexample :
    (generate_contextual_response env_happy "" 3 (1/2) none none prof0).1.metadata
        = none
    ∧ (generate_contextual_response env_happy "" 3 (1/2) none none
        prof0).1.response_type = none
    ∧ (generate_contextual_response env_happy "" 3 (1/2) none none prof0).1.success
        = false := by
  with_unfolding_all decide

/-- C8 (amended): every success branch of the dispatcher returns an outcome
whose metadata is present (its mandatory `model_used` field names the model
actually used) and whose `routing` entry is exactly the RouteDecision
computed by route resolution (None when an explicit model bypassed
classification); every failure branch omits both the metadata and the
`response_type` fields entirely. -/
theorem C8_metadata_amended (env : Env) (query : String) (max_context_docs : Nat)
    (context_score_threshold : ℚ) (model : Option String)
    (metadata : Option Metadata) (prof : MatchProfile) :
    ((generate_contextual_response env query max_context_docs
        context_score_threshold model metadata prof).1.success = true →
      Option.map OutMeta.routing (generate_contextual_response env query
          max_context_docs context_score_threshold model metadata prof).1.metadata
        = some (resolveRoute query model metadata prof).1)
    ∧ ((generate_contextual_response env query max_context_docs
        context_score_threshold model metadata prof).1.success = false →
      ((generate_contextual_response env query max_context_docs
          context_score_threshold model metadata prof).1.metadata = none
        ∧ (generate_contextual_response env query max_context_docs
            context_score_threshold model metadata prof).1.response_type = none)) := by
  unfold generate_contextual_response
  dsimp only
  split
  · exact ⟨fun h => by simp [failure_outcome] at h, fun _ => ⟨rfl, rfl⟩⟩
  · split
    · exact ⟨(handle_image_meta env query _).1,
             handle_image_failure_fields env query _⟩
    · split
      · split
        · exact ⟨fun h => by simp [failure_outcome] at h, fun _ => ⟨rfl, rfl⟩⟩
        · split
          · exact ⟨(handle_code_meta env query _ _).1,
                   handle_code_failure_fields env query _ _⟩
          · exact ⟨(handle_default_meta env query _ _ model).1,
                   handle_default_failure_fields env query _ _ model⟩
      · split
        · exact ⟨(handle_code_meta env query _ _).1,
                 handle_code_failure_fields env query _ _⟩
        · exact ⟨(handle_default_meta env query _ _ model).1,
                 handle_default_failure_fields env query _ _ model⟩

/-- Witness for C8 (amended): a successful default-branch run carries the
serialized routing decision in its metadata. -/
theorem C8_witness :
    Option.map OutMeta.routing
        (generate_contextual_response env_happy "ola" 3 (1/2) none none prof0).1.metadata
      = some (resolveRoute "ola" none none prof0).1 :=
  (C8_metadata_amended env_happy "ola" 3 (1/2) none none prof0).1
    (by with_unfolding_all decide)

/-- When the code adapter returns no truthy output or raises, the code
branch is exactly the default branch on the same query, context, and
routing decision, with the code-adapter call prepended to the trace. -/
lemma handle_code_fallback (env : Env) (query : String) (docs : List ContextDoc)
    (rr : Option RouteResult)
    (hfail : code_adapter_output_falsy (env.qwen_generate query
        (code_context_arg docs) (code_temperature rr)) = true) :
    handle_code_generation env query docs rr
      = ((handle_default_generation env query docs rr none).1,
         CallEvent.qwen_generate query (code_context_arg docs) (code_temperature rr)
           :: (handle_default_generation env query docs rr none).2) := by
  unfold handle_code_generation
  dsimp only
  cases hg : env.qwen_generate query (code_context_arg docs) (code_temperature rr) with
  | error e => rfl
  | ok o =>
      cases o with
      | none => rfl
      | some s =>
          rw [hg] at hfail
          have hs : s = "" := of_decide_eq_true hfail
          subst hs
          simp

/-- The default branch never reports `response_type = "code"`. -/
lemma handle_default_not_code (env : Env) (query : String)
    (docs : List ContextDoc) (rr : Option RouteResult) (sm : Option String) :
    (handle_default_generation env query docs rr sm).1.response_type
      ≠ some "code" := by
  unfold handle_default_generation
  dsimp only
  split
  · simp [failure_outcome]
  · simp [failure_outcome]
  · split <;> simp [failure_outcome]

/-- On success with no explicitly requested model, the default branch
reports the system default model as the model used. -/
lemma handle_default_model_used_none (env : Env) (query : String)
    (docs : List ContextDoc) (rr : Option RouteResult) :
    (handle_default_generation env query docs rr none).1.success = true →
    Option.map OutMeta.model_used
        (handle_default_generation env query docs rr none).1.metadata
      = some env.default_model := by
  unfold handle_default_generation
  dsimp only
  split
  · intro h; simp [failure_outcome] at h
  · intro h; simp [failure_outcome] at h
  · split
    · intro h; simp [failure_outcome] at h
    · intro h; simp [failure_outcome] at h
    · intro _; rfl

/-- C3 counterexample: a code-routed request whose code adapter returns no
output and whose fallback text backend is unavailable yields an outcome
with no `response_type` at all — neither `"text"` nor `"error"`. -/
theorem C3_counterexample :
    (resolveRoute "write code" (some "qwen3:coder") none prof0).2 = ModelType.CODE
    ∧ code_adapter_output_falsy (env_all_down.qwen_generate "write code"
        (code_context_arg []) (code_temperature
          (resolveRoute "write code" (some "qwen3:coder") none prof0).1)) = true
    ∧ ¬((generate_contextual_response env_all_down "write code" 3 (1/2)
          (some "qwen3:coder") none prof0).1.response_type = some "text"
        ∨ (generate_contextual_response env_all_down "write code" 3 (1/2)
            (some "qwen3:coder") none prof0).1.response_type = some "error") := by
  with_unfolding_all decide

/-- C3 (amended): when the code adapter returns no output or throws during
the CODE branch, the dispatcher performs exactly one fallback hop to the
default text backend with the identical query and already-retrieved
context; the outcome never has `response_type = "code"` (it is `"text"` on
success and absent on failure), and on success `metadata.model_used` is the
default text model, not the code model. -/
theorem C3_code_fallback (env : Env) (query : String) (max_context_docs : Nat)
    (context_score_threshold : ℚ) (model : Option String)
    (metadata : Option Metadata) (prof : MatchProfile) (docs : List ContextDoc)
    (hq : is_blank query = false)
    (hroute : (resolveRoute query model metadata prof).2 = ModelType.CODE)
    (hret : env.retrieve query max_context_docs
        (min context_score_threshold (3/10)) = Except.ok docs)
    (hfail : code_adapter_output_falsy (env.qwen_generate query
        (code_context_arg docs) (code_temperature
          (resolveRoute query model metadata prof).1)) = true) :
    generate_contextual_response env query max_context_docs
        context_score_threshold model metadata prof
      = ((handle_default_generation env query docs
            (resolveRoute query model metadata prof).1 none).1,
         CallEvent.retrieve query max_context_docs
             (min context_score_threshold (3/10))
           :: CallEvent.qwen_generate query (code_context_arg docs)
                (code_temperature (resolveRoute query model metadata prof).1)
           :: (handle_default_generation env query docs
                (resolveRoute query model metadata prof).1 none).2)
    ∧ (generate_contextual_response env query max_context_docs
          context_score_threshold model metadata prof).1.response_type
        ≠ some "code"
    ∧ ((generate_contextual_response env query max_context_docs
          context_score_threshold model metadata prof).1.success = true →
        Option.map OutMeta.model_used (generate_contextual_response env query
            max_context_docs context_score_threshold model metadata prof).1.metadata
          = some env.default_model) := by
  have hcf := handle_code_fallback env query docs
    (resolveRoute query model metadata prof).1 hfail
  have h1 : generate_contextual_response env query max_context_docs
      context_score_threshold model metadata prof
    = ((handle_default_generation env query docs
          (resolveRoute query model metadata prof).1 none).1,
       CallEvent.retrieve query max_context_docs
           (min context_score_threshold (3/10))
         :: CallEvent.qwen_generate query (code_context_arg docs)
              (code_temperature (resolveRoute query model metadata prof).1)
         :: (handle_default_generation env query docs
              (resolveRoute query model metadata prof).1 none).2) := by
    unfold generate_contextual_response
    dsimp only
    rw [if_neg (by simp [hq])]
    rw [hroute]
    rw [if_neg (by decide : ¬(ModelType.CODE = ModelType.IMAGE))]
    rw [if_pos (by decide : ModelType.CODE
          ∈ [ModelType.DEFAULT, ModelType.CODE, ModelType.WEB_SEARCH])]
    rw [if_pos (rfl : ModelType.CODE = ModelType.CODE)]
    rw [hret]
    try dsimp only
    rw [hcf]
    rw [if_pos (rfl : ModelType.CODE = ModelType.CODE)]
  refine ⟨h1, ?_, ?_⟩
  · rw [h1]
    exact handle_default_not_code env query docs _ none
  · rw [h1]
    exact handle_default_model_used_none env query docs _


/-- Witness for C3 (amended): a concrete code-routed run whose code adapter
returns `None` falls back and reports no code response type. -/
theorem C3_witness :
    (is_blank "write code" = false
      ∧ (resolveRoute "write code" (some "qwen3:coder") none prof0).2
          = ModelType.CODE
      ∧ env_code_down.retrieve "write code" 3 (min (1/2) (3/10)) = Except.ok []
      ∧ code_adapter_output_falsy (env_code_down.qwen_generate "write code"
          (code_context_arg []) (code_temperature
            (resolveRoute "write code" (some "qwen3:coder") none prof0).1)) = true)
    ∧ (generate_contextual_response env_code_down "write code" 3 (1/2)
        (some "qwen3:coder") none prof0).1.response_type ≠ some "code" :=
  ⟨⟨by decide, by decide, rfl, rfl⟩,
   (C3_code_fallback env_code_down "write code" 3 (1/2) (some "qwen3:coder")
      none prof0 [] (by decide) (by decide) rfl rfl).2.1⟩

/-- A string that is no known backend value maps to the DEFAULT backend in
the lookup loop. -/
lemma model_type_of_value_unknown (m : String) (hk : m ∉ known_model_values) :
    model_type_of_value m = ModelType.DEFAULT := by
  unfold model_type_of_value
  split_ifs with h1 h2 h3 h4
  · rfl
  · exact absurd (by simp [known_model_values, h2]) hk
  · exact absurd (by simp [known_model_values, h3]) hk
  · exact absurd (by simp [known_model_values, h4]) hk
  · rfl

/-- A non-empty explicit model string that names no known backend resolves
to the DEFAULT backend with no routing decision (no classification). -/
lemma resolveRoute_unknown (query : String) (metadata : Option Metadata)
    (prof : MatchProfile) (m : String) (hm : m ≠ "")
    (hk : m ∉ known_model_values) :
    resolveRoute query (some m) metadata prof = (none, ModelType.DEFAULT) := by
  unfold resolveRoute
  dsimp only
  rw [if_neg hm, model_type_of_value_unknown m hk]

/-- Every text-LLM call in the default branch passes exactly the
explicitly requested model argument. -/
lemma handle_default_llm_args (env : Env) (query : String)
    (docs : List ContextDoc) (rr : Option RouteResult) (sm : Option String) :
    llm_model_args_eq (handle_default_generation env query docs rr sm).2 sm
      = true := by
  unfold handle_default_generation
  dsimp only
  split
  · rfl
  · rfl
  · split <;> simp [llm_model_args_eq]

/-- On success with a non-empty explicitly requested model, the default
branch reports that model string verbatim as the model used. -/
lemma handle_default_model_used_some (env : Env) (query : String)
    (docs : List ContextDoc) (rr : Option RouteResult) (m : String)
    (hm : m ≠ "") :
    (handle_default_generation env query docs rr (some m)).1.success = true →
    Option.map OutMeta.model_used
        (handle_default_generation env query docs rr (some m)).1.metadata
      = some m := by
  unfold handle_default_generation
  dsimp only
  split
  · intro h; simp [failure_outcome] at h
  · intro h; simp [failure_outcome] at h
  · split
    · intro h; simp [failure_outcome] at h
    · intro h; simp [failure_outcome] at h
    · intro _; simp [hm]

/-- C10 counterexample: the empty string is an explicit model string that
matches no backend, yet the dispatcher treats it as no model at all — it
runs classification (`routing` metadata is populated) and reports the
system default model, not the empty string, as the model used. -/
theorem C10_counterexample :
    ¬("" ∈ known_model_values)
    ∧ (generate_contextual_response env_happy "ola" 3 (1/2) (some "") none
        prof0).1.success = true
    ∧ Option.map OutMeta.model_used (generate_contextual_response env_happy "ola"
        3 (1/2) (some "") none prof0).1.metadata ≠ some ""
    ∧ Option.map OutMeta.routing (generate_contextual_response env_happy "ola"
        3 (1/2) (some "") none prof0).1.metadata ≠ some none := by
  with_unfolding_all decide

/-- C10 (amended): for every non-empty caller-supplied model string that
matches no known backend name, the dispatcher silently routes through the
DEFAULT branch with no classification, forwards the unknown string verbatim
as the model argument of every text-adapter call, and on success reports
that string as `metadata.model_used` (with no routing decision recorded);
the empty string is instead treated as no explicit model and goes through
classification. -/
theorem C10_unknown_model (env : Env) (query : String) (max_context_docs : Nat)
    (context_score_threshold : ℚ) (metadata : Option Metadata)
    (prof : MatchProfile) (m : String) (docs : List ContextDoc)
    (hq : is_blank query = false)
    (hm : m ≠ "")
    (hk : m ∉ known_model_values)
    (hret : env.retrieve query max_context_docs context_score_threshold
        = Except.ok docs) :
    generate_contextual_response env query max_context_docs
        context_score_threshold (some m) metadata prof
      = ((handle_default_generation env query docs none (some m)).1,
         CallEvent.retrieve query max_context_docs context_score_threshold
           :: (handle_default_generation env query docs none (some m)).2)
    ∧ llm_model_args_eq (generate_contextual_response env query max_context_docs
        context_score_threshold (some m) metadata prof).2 (some m) = true
    ∧ ((generate_contextual_response env query max_context_docs
          context_score_threshold (some m) metadata prof).1.success = true →
        (Option.map OutMeta.model_used (generate_contextual_response env query
            max_context_docs context_score_threshold (some m) metadata prof).1.metadata
          = some m
        ∧ Option.map OutMeta.routing (generate_contextual_response env query
            max_context_docs context_score_threshold (some m) metadata prof).1.metadata
          = some none)) := by
  have hrr := resolveRoute_unknown query metadata prof m hm hk
  have h1 : generate_contextual_response env query max_context_docs
      context_score_threshold (some m) metadata prof
    = ((handle_default_generation env query docs none (some m)).1,
       CallEvent.retrieve query max_context_docs context_score_threshold
         :: (handle_default_generation env query docs none (some m)).2) := by
    unfold generate_contextual_response
    dsimp only
    rw [if_neg (by simp [hq])]
    rw [hrr]
    try dsimp only
    rw [if_neg (by decide : ¬(ModelType.DEFAULT = ModelType.IMAGE))]
    rw [if_pos (by decide : ModelType.DEFAULT
          ∈ [ModelType.DEFAULT, ModelType.CODE, ModelType.WEB_SEARCH])]
    rw [if_neg (by decide : ¬(ModelType.DEFAULT = ModelType.CODE))]
    rw [hret]
    try dsimp only
    try rw [if_neg (by decide : ¬(ModelType.DEFAULT = ModelType.CODE))]
  refine ⟨h1, ?_, ?_⟩
  · rw [h1]
    simp only [llm_model_args_eq, List.all_cons, Bool.and_eq_true]
    exact ⟨trivial, handle_default_llm_args env query docs none (some m)⟩
  · rw [h1]
    intro hs
    exact ⟨handle_default_model_used_some env query docs none m hm hs,
           (handle_default_meta env query docs none (some m)).1 hs⟩

/-- Witness for C10 (amended) at a concrete unknown model string. -/
theorem C10_witness :
    (is_blank "ola" = false ∧ "llama-99" ≠ ""
      ∧ "llama-99" ∉ known_model_values
      ∧ env_happy.retrieve "ola" 3 (1/2) = Except.ok [])
    ∧ llm_model_args_eq (generate_contextual_response env_happy "ola" 3 (1/2)
        (some "llama-99") none prof0).2 (some "llama-99") = true :=
  ⟨⟨by decide, by decide, by decide, rfl⟩,
   (C10_unknown_model env_happy "ola" 3 (1/2) none prof0 "llama-99" []
      (by decide) (by decide) (by decide) rfl).2.1⟩

end Aurax
